import Mathlib

/-
Verification of the outbound-tool-calling service in src/app.py.

The service is a thin FastAPI app: `call_n8n` performs an HTTP POST to a
webhook and normalizes the response to a string; two tools (`preco`,
`enviar_msg`) forward their argument mapping to fixed paths; the `/agent`
endpoint assembles a prompt string from the validated payload and relays
the agent outcome.

Shallow embedding conventions:
- Parsed JSON / Python runtime values are modelled by `PyVal`.  Python
  `bool` is a distinct constructor but is treated as an `int` subtype where
  the source uses `isinstance(x, (str, int, float))`.
- Python `float` values are carried abstractly as their rendered string
  (`pfloat s` renders as `s` both under `str()` and `json.dumps`); no
  floating-point arithmetic occurs in the source paths under verification.
- Python dicts are association lists with string keys (parsed JSON objects
  have string keys; key lookup takes the first match, and dicts produced by
  `json.loads` have no duplicate keys).
- The HTTP side effects of `requests.post` are reified: the request the
  code builds is an `HttpRequest` value, and the response the code consumes
  is an `HttpResponse` value whose `jsonResult` field records the outcome
  of `resp.json()` (parse success or failure, which is library behaviour,
  not code of this repository).
- `raise HTTPException(...)` is modelled with `Except HTTPExceptionV String`.
-/

namespace AgentApp

/-- A Python runtime value as produced by `resp.json()` / manipulated by
`app.py`: `None`, `bool`, `int`, `float` (carried as its rendered string),
`str`, `list`, `dict` with string keys. -/
inductive PyVal where
  | pnone : PyVal
  | pbool : Bool → PyVal
  | pint : Int → PyVal
  | pfloat : String → PyVal
  | pstr : String → PyVal
  | plist : List PyVal → PyVal
  | pdict : List (String × PyVal) → PyVal

/-- Python dict lookup `d[k]` / membership `k in d`, as first-match lookup
in the association list. -/
def lookupDict (kvs : List (String × PyVal)) (k : String) : Option PyVal :=
  match kvs with
  | [] => Option.none
  | (k2, v) :: rest => if k2 = k then some v else lookupDict rest k

/-- The check `isinstance(v, (str, int, float))` from app.py line 70.
Python `bool` is a subclass of `int`, so booleans pass this check. -/
def isStrIntFloat : PyVal → Bool
  | .pstr _ => true
  | .pint _ => true
  | .pfloat _ => true
  | .pbool _ => true
  | _ => false

/-- `isinstance(v, dict)`. -/
def isDict : PyVal → Bool
  | .pdict _ => true
  | _ => false

/-- Lowercase hexadecimal digit. -/
def hexDigit (n : Nat) : Char :=
  if n < 10 then Char.ofNat (48 + n) else Char.ofNat (87 + n % 16)

/-- Two lowercase hexadecimal digits for a byte value. -/
def hexByte (n : Nat) : String :=
  String.mk [hexDigit (n / 16 % 16), hexDigit (n % 16)]

/-- The quote character Python `repr` picks for a string: a single quote,
unless the string contains a single quote and no double quote. -/
def reprQuote (s : String) : Char :=
  if s.contains (Char.ofNat 39) && !(s.contains (Char.ofNat 34)) then
    Char.ofNat 34
  else
    Char.ofNat 39

/-- Escaping of one character inside a Python `repr` string literal with
quote character `q`: backslash, the quote, `\n`, `\r`, `\t`, other control
characters as `\xXX`.  Printable characters (including non-ASCII, which
CPython keeps as-is) pass through. -/
def pyReprEscChar (q : Char) (c : Char) : String :=
  if c = Char.ofNat 92 then "\\\\"
  else if c = q then String.mk [Char.ofNat 92, q]
  else if c = Char.ofNat 10 then "\\n"
  else if c = Char.ofNat 13 then "\\r"
  else if c = Char.ofNat 9 then "\\t"
  else if c.toNat < 32 || c.toNat = 127 then "\\x" ++ hexByte c.toNat
  else String.singleton c

/-- Python `repr` of a `str`. -/
def pyReprStr (s : String) : String :=
  let q := reprQuote s
  String.singleton q ++ String.join (s.toList.map (pyReprEscChar q)) ++ String.singleton q

mutual

/-- Python `repr` of a value (used by `str()` on containers). -/
def pyRepr : PyVal → String
  | .pnone => "None"
  | .pbool true => "True"
  | .pbool false => "False"
  | .pint n => toString n
  | .pfloat s => s
  | .pstr s => pyReprStr s
  | .plist xs => "[" ++ pyReprList xs ++ "]"
  | .pdict kvs => "\x7b" ++ pyReprDict kvs ++ "\x7d"

/-- Comma-separated `repr`s of list elements. -/
def pyReprList : List PyVal → String
  | [] => ""
  | [v] => pyRepr v
  | v :: rest => pyRepr v ++ ", " ++ pyReprList rest

/-- Comma-separated `key: value` `repr` pairs of dict entries. -/
def pyReprDict : List (String × PyVal) → String
  | [] => ""
  | [(k, v)] => pyReprStr k ++ ": " ++ pyRepr v
  | (k, v) :: rest => pyReprStr k ++ ": " ++ pyRepr v ++ ", " ++ pyReprDict rest

end

/-- Python `str()` of a value: the string itself for `str`, `repr`-based
rendering otherwise (`str` and `repr` agree on `None`, `bool`, `int`,
`float`, `list` and `dict`). -/
def pyStr : PyVal → String
  | .pstr s => s
  | v => pyRepr v

/-- Escaping of one character by `json.dumps(..., ensure_ascii=False)`:
backslash, double quote, `\n`, `\r`, `\t`, `\b`, `\f`, other control
characters as `\u00XX`; everything else (non-ASCII included) kept. -/
def jsonEscChar (c : Char) : String :=
  if c = Char.ofNat 92 then "\\\\"
  else if c = Char.ofNat 34 then "\\\""
  else if c = Char.ofNat 10 then "\\n"
  else if c = Char.ofNat 13 then "\\r"
  else if c = Char.ofNat 9 then "\\t"
  else if c = Char.ofNat 8 then "\\b"
  else if c = Char.ofNat 12 then "\\f"
  else if c.toNat < 32 then "\\u00" ++ hexByte c.toNat
  else String.singleton c

/-- JSON rendering of a string literal with `ensure_ascii=False`. -/
def jsonDumpsStr (s : String) : String :=
  "\"" ++ String.join (s.toList.map jsonEscChar) ++ "\""

mutual

/-- `json.dumps(v, ensure_ascii=False)` with the default separators
`", "` and `": "`, as used by app.py lines 72 and 164. -/
def jsonDumps : PyVal → String
  | .pnone => "null"
  | .pbool true => "true"
  | .pbool false => "false"
  | .pint n => toString n
  | .pfloat s => s
  | .pstr s => jsonDumpsStr s
  | .plist xs => "[" ++ jsonDumpsList xs ++ "]"
  | .pdict kvs => "\x7b" ++ jsonDumpsDict kvs ++ "\x7d"

/-- Comma-separated JSON renderings of list elements. -/
def jsonDumpsList : List PyVal → String
  | [] => ""
  | [v] => jsonDumps v
  | v :: rest => jsonDumps v ++ ", " ++ jsonDumpsList rest

/-- Comma-separated `"key": value` JSON renderings of dict entries. -/
def jsonDumpsDict : List (String × PyVal) → String
  | [] => ""
  | [(k, v)] => jsonDumpsStr k ++ ": " ++ jsonDumps v
  | (k, v) :: rest => jsonDumpsStr k ++ ": " ++ jsonDumps v ++ ", " ++ jsonDumpsDict rest

end

/-- Python `s.rstrip("/")`, applied to `N8N_BASE` at configuration time
(app.py line 21). -/
def rstripSlash (s : String) : String :=
  String.mk ((s.toList.reverse.dropWhile (fun c => c = Char.ofNat 47)).reverse)

/-- Python `path.lstrip('/')` from app.py line 44. -/
def lstripSlash (s : String) : String :=
  String.mk (s.toList.dropWhile (fun c => c = Char.ofNat 47))

/-- The outbound HTTP POST issued by `requests.post(url, headers=headers,
json=payload, timeout=30)`, reified as data. -/
structure HttpRequest where
  url : String
  headers : List (String × String)
  jsonBody : PyVal
  timeoutSeconds : Nat

/-- The headers dict built by `call_n8n` (app.py lines 45-48).  Note the
Authorization entry is built unconditionally, whatever the token is. -/
def call_n8n_headers (token : String) : List (String × String) :=
  [("Content-Type", "application/json"),
   ("Authorization", "Bearer " ++ token)]

/-- The request `call_n8n` issues (app.py lines 44-50), given the
configured base URL (already `rstrip`-ed) and token. -/
def call_n8n_request (base token : String) (path : String) (payload : PyVal) : HttpRequest :=
  { url := base ++ "/" ++ lstripSlash path
    headers := call_n8n_headers token
    jsonBody := payload
    timeoutSeconds := 30 }

/-- The webhook response as seen by `call_n8n`: status code, the outcome of
`resp.json()` (`Except.error` when parsing raises), and `resp.text`. -/
structure HttpResponse where
  status_code : Nat
  jsonResult : Except Unit PyVal
  text : String

/-- `fastapi.HTTPException(status_code=..., detail=...)`. -/
structure HTTPExceptionV where
  status_code : Nat
  detail : PyVal

/-- app.py lines 52-55: parse the body as JSON, wrapping the raw text as
a dict `\x7b"text": raw\x7d` when parsing fails. -/
def respData (resp : HttpResponse) : PyVal :=
  match resp.jsonResult with
  | .ok d => d
  | .error _ => .pdict [("text", .pstr resp.text)]

/-- The fixed candidate-key priority list of app.py line 69. -/
def candidateKeys : List String :=
  ["mensagem", "message", "texto", "text", "output"]

/-- The `for k in (...)` loop of app.py lines 69-71: the first key of the
list that is in the dict with a `str`/`int`/`float` value yields `str` of
that value; a key that is absent, or present with another value, is passed
over. -/
def probeKeys : List String → List (String × PyVal) → Option String
  | [], _ => Option.none
  | k :: ks, kvs =>
    match lookupDict kvs k with
    | some v => if isStrIntFloat v then some (pyStr v) else probeKeys ks kvs
    | Option.none => probeKeys ks kvs

/-- app.py lines 67-73: flatten the (parsed or wrapped) body to a string:
key probing then `json.dumps` fallback for dicts, `str()` otherwise. -/
def flattenData : PyVal → String
  | .pdict kvs =>
    (match probeKeys candidateKeys kvs with
     | some s => s
     | Option.none => jsonDumps (.pdict kvs))
  | d => pyStr d

/-- app.py lines 57-73: handling of a received response by `call_n8n`.
Status `>= 400` raises `HTTPException(502, detail=...)` with the tool path,
status and parsed/wrapped body; otherwise the flattened string is
returned.  The function consumes exactly one response: `call_n8n` makes a
single `requests.post` attempt per invocation, with no retry. -/
def call_n8n_handle (path : String) (resp : HttpResponse) : Except HTTPExceptionV String :=
  let data := respData resp
  if resp.status_code ≥ 400 then
    .error
      { status_code := 502
        detail := .pdict
          [("tool", .pstr path),
           ("status", .pint (resp.status_code : Int)),
           ("response", data)] }
  else
    .ok (flattenData data)

/-- app.py lines 49-78 overall: a transport failure of `requests.post`
(the `except Exception` branch) becomes a 502 with a string detail; a
received response is handled by `call_n8n_handle` (the inner
`HTTPException` passes through the `except HTTPException: raise`). -/
def call_n8n_outcome (path : String) (r : Except String HttpResponse) : Except HTTPExceptionV String :=
  match r with
  | .ok resp => call_n8n_handle path resp
  | .error e => .error
      { status_code := 502
        detail := .pstr ("Erro chamando n8n/" ++ path ++ ": " ++ e) }

/-- The outbound call a tool invocation performs: the webhook path and the
JSON payload handed to `call_n8n`. -/
structure OutboundCall where
  path : String
  payload : PyVal

/-- `tool_preco` (app.py lines 83-88): forwards its dict to the fixed
path `"preco"`. -/
def tool_preco (a : PyVal) : OutboundCall :=
  { path := "preco", payload := a }

/-- `tool_enviar_msg` (app.py lines 90-95): forwards its dict to the fixed
path `"enviarmsg"`. -/
def tool_enviar_msg (a : PyVal) : OutboundCall :=
  { path := "enviarmsg", payload := a }

/-- The `preco` tool function registered in `TOOLS` (app.py line 104):
`lambda a: tool_preco(a if isinstance(a, dict) else \x7b\x7d)`. -/
def preco_func (a : PyVal) : OutboundCall :=
  tool_preco (if isDict a then a else .pdict [])

/-- The `enviar_msg` tool function registered in `TOOLS` (app.py line 112):
`lambda a: tool_enviar_msg(a if isinstance(a, dict) else \x7b\x7d)`. -/
def enviar_msg_func (a : PyVal) : OutboundCall :=
  tool_enviar_msg (if isDict a then a else .pdict [])

/-- The validated `AgentPayload` pydantic model (app.py lines 142-146).
`instancia` is `Optional[str]` defaulting to `None`; `contexto` is
`Optional[Dict[str, Any]]` with `default_factory=dict`, so an absent field
arrives as the empty dict while an explicit JSON `null` arrives as `None`. -/
structure AgentPayload where
  lead_id : String
  instancia : Option String
  mensagem : String
  contexto : Option (List (String × PyVal))

/-- Python `body.instancia or ''` (app.py line 163): `None` and the empty
string are falsy and give `''`. -/
def pyOrEmptyStr : Option String → String
  | Option.none => ""
  | some s => if s = "" then "" else s

/-- Python `body.contexto or \x7b\x7d` (app.py line 164): `None` and the
empty dict are falsy and give the empty dict. -/
def pyOrEmptyDict : Option (List (String × PyVal)) → List (String × PyVal)
  | Option.none => []
  | some kvs => if kvs.isEmpty then [] else kvs

/-- The f-string of app.py lines 161-166 assembling the agent input. -/
def agent_user_input (body : AgentPayload) : String :=
  "lead_id=" ++ body.lead_id ++ "; " ++
  "instancia=" ++ pyOrEmptyStr body.instancia ++ "; " ++
  "contexto=" ++ jsonDumps (.pdict (pyOrEmptyDict body.contexto)) ++ "; " ++
  "pergunta=" ++ body.mensagem

/-- Outcome of `agent.invoke(...)` as observed by the endpoint: a returned
value, a raised `HTTPException` (a tool error propagating out of the
executor), or any other raised exception with its message. -/
inductive AgentRun where
  | ok : PyVal → AgentRun
  | httpExc : HTTPExceptionV → AgentRun
  | failure : String → AgentRun

/-- app.py lines 183-186: extract the response text from the executor
result: `result["output"]` when the result is a dict with that key,
`str(result)` otherwise. -/
def agent_result_text (result : PyVal) : String :=
  match result with
  | .pdict kvs =>
    (match lookupDict kvs "output" with
     | some v => pyStr v
     | Option.none => pyStr (.pdict kvs))
  | r => pyStr r

/-- `agent_endpoint` (app.py lines 152-194), with the opaque agent loop
abstracted as a function `run` of the assembled input string.  A raised
`HTTPException` is re-raised unchanged (`except HTTPException: raise`);
any other exception becomes a 500 with the message appended to
`"Agent error: "`. -/
def agent_endpoint (body : AgentPayload) (run : String → AgentRun) : Except HTTPExceptionV PyVal :=
  match run (agent_user_input body) with
  | .ok r => .ok (.pdict [("ok", .pbool true), ("text", .pstr (agent_result_text r))])
  | .httpExc e => .error e
  | .failure m => .error { status_code := 500, detail := .pstr ("Agent error: " ++ m) }

/-! ### Spec-side formulations

Definitions written from the wording of the specification, to be compared
with the source-derived definitions above. -/

/-- Worded from the claim: the value of the first candidate key that is
present in the mapping, regardless of the value's type. -/
def claimFirstPresent (kvs : List (String × PyVal)) : Option PyVal :=
  candidateKeys.findSome? fun k => lookupDict kvs k

/-- Worded from the amended claim: the value of the first candidate key
present in the mapping with a `str`/`int`/`float` value (Python booleans
count as integers). -/
def specFirstScalar (kvs : List (String × PyVal)) : Option PyVal :=
  candidateKeys.findSome? fun k =>
    match lookupDict kvs k with
    | some v => if isStrIntFloat v then some v else Option.none
    | Option.none => Option.none

/-- Every candidate key is either absent from the mapping or holds a value
that is not a `str`/`int`/`float`. -/
def noScalarCandidate (kvs : List (String × PyVal)) : Bool :=
  candidateKeys.all fun k =>
    match lookupDict kvs k with
    | some v => !(isStrIntFloat v)
    | Option.none => true

/-! ### Helper lemmas -/

theorem probeKeys_eq_findSome (ks : List String) (kvs : List (String × PyVal)) :
    probeKeys ks kvs =
      (ks.findSome? fun k =>
        match lookupDict kvs k with
        | some v => if isStrIntFloat v then some v else Option.none
        | Option.none => Option.none).map pyStr := by
  induction ks with
  | nil => rfl
  | cons k ks ih =>
    rw [probeKeys, List.findSome?]
    cases hl : lookupDict kvs k with
    | none => simpa using ih
    | some v =>
      by_cases hv : isStrIntFloat v <;> simp [hv, ih]

theorem probeKeys_none_of_noScalar (ks : List String) (kvs : List (String × PyVal))
    (h : (ks.all fun k =>
        match lookupDict kvs k with
        | some v => !(isStrIntFloat v)
        | Option.none => true) = true) :
    probeKeys ks kvs = Option.none := by
  induction ks with
  | nil => rfl
  | cons k ks ih =>
    rw [List.all_cons, Bool.and_eq_true] at h
    obtain ⟨hk, hks⟩ := h
    rw [probeKeys]
    cases hl : lookupDict kvs k with
    | none => exact ih hks
    | some v =>
      rw [hl] at hk
      simp only [Bool.not_eq_true'] at hk
      simp [hk]
      exact ih hks

theorem call_n8n_handle_success (path : String) (resp : HttpResponse)
    (hst : resp.status_code < 400) :
    call_n8n_handle path resp = .ok (flattenData (respData resp)) := by
  rw [call_n8n_handle]
  simp [Nat.not_le.mpr hst]

/-! ### Claim theorems -/

/-- Claim C1, counterexample.  The claim says `call_n8n` returns, as a
string, the value of the first candidate key PRESENT in the mapping.  On
the body with entries `mensagem = None` and `message = "oi"` the first
present candidate key is `mensagem` with value `None` (whose string form is
`"None"`), yet the code returns `"oi"`: a present candidate key whose value
is not a `str`/`int`/`float` is skipped. -/
theorem call_n8n_first_present_claim_refuted :
    call_n8n_handle ("preco")
      { status_code := 200
        jsonResult := .ok (.pdict [("mensagem", PyVal.pnone), ("message", PyVal.pstr ("oi"))])
        text := "" } = .ok "oi"
    ∧ claimFirstPresent [("mensagem", PyVal.pnone), ("message", PyVal.pstr ("oi"))] =
        some PyVal.pnone
    ∧ pyStr PyVal.pnone = "None"
    ∧ ("oi" : String) ≠ "None" := by
  refine ⟨rfl, rfl, rfl, by decide⟩

/-- Claim C1, amended: for every webhook response with a success status
whose body parses as a JSON mapping, `call_n8n` returns, as a string, the
value of the first candidate key among `mensagem`, `message`, `texto`,
`text`, `output` that is present with a `str`/`int`/`float` value (probed
in that fixed priority order; candidate keys holding other values are
skipped), and when no candidate key holds such a value the mapping is
returned as its JSON serialization with non-ASCII characters preserved. -/
theorem call_n8n_flattens_first_scalar_key (path : String) (resp : HttpResponse)
    (kvs : List (String × PyVal))
    (hst : resp.status_code < 400) (hjson : resp.jsonResult = .ok (.pdict kvs)) :
    call_n8n_handle path resp =
      .ok (match specFirstScalar kvs with
           | some v => pyStr v
           | Option.none => jsonDumps (.pdict kvs)) := by
  rw [call_n8n_handle]
  simp only [Nat.not_le.mpr hst, ge_iff_le, if_false]
  rw [respData, hjson]
  rw [flattenData, probeKeys_eq_findSome]
  rw [specFirstScalar]
  cases (candidateKeys.findSome? fun k =>
      match lookupDict kvs k with
      | some v => if isStrIntFloat v then some v else Option.none
      | Option.none => Option.none) with
  | none => rfl
  | some v => rfl

/-- Witness for C1 at two concrete inputs: the body with `mensagem = "R$99"`
and a later candidate key also present yields `"R$99"`, and a body with no
candidate key is JSON-serialized with non-ASCII preserved. -/
theorem call_n8n_flattens_first_scalar_key_witness :
    call_n8n_handle ("preco")
      { status_code := 200
        jsonResult := .ok (.pdict [("mensagem", PyVal.pstr ("R$99")), ("message", PyVal.pstr ("x"))])
        text := "" } = .ok "R$99"
    ∧ call_n8n_handle ("preco")
      { status_code := 200
        jsonResult := .ok (.pdict [("preço", PyVal.pstr ("café"))])
        text := "" } = .ok "\x7b\"preço\": \"café\"\x7d" := by
  constructor
  · exact call_n8n_flattens_first_scalar_key ("preco") _
      [("mensagem", PyVal.pstr ("R$99")), ("message", PyVal.pstr ("x"))] (by decide) rfl
  · exact call_n8n_flattens_first_scalar_key ("preco") _
      [("preço", PyVal.pstr ("café"))] (by decide) rfl

/-- Claim C2, counterexample.  The claim says no Authorization header is
sent when no token is configured; but the headers dict of `call_n8n` is
built unconditionally, so with the unconfigured token (the empty string,
the default of `os.getenv`) the request still carries an Authorization
header with value `"Bearer "`. -/
theorem call_n8n_auth_header_sent_without_token :
    (call_n8n_request ("https://n8n.example.com/webhook") ("") ("preco") (.pdict [])).headers =
      [("Content-Type", "application/json"), ("Authorization", "Bearer ")] := by
  decide

/-- Claim C2, amended: the outbound POST of `call_n8n` always carries the
header `Authorization: Bearer <token>` — including when no token is
configured, in which case the header value is `"Bearer "` with an empty
token — together with `Content-Type: application/json` and a fixed
30-second timeout. -/
theorem call_n8n_request_headers_and_timeout (base token path : String) (payload : PyVal) :
    (call_n8n_request base token path payload).headers =
      [("Content-Type", "application/json"), ("Authorization", "Bearer " ++ token)]
    ∧ (call_n8n_request base token path payload).timeoutSeconds = 30 :=
  ⟨rfl, rfl⟩

/-- Claim C3: for every webhook response with status `>= 400`, `call_n8n`
fails with a 502 `HTTPException` whose detail carries the tool path, the
upstream status code and the parsed (or raw-wrapped) body — and the
`/agent` endpoint re-raises an `HTTPException` coming out of the agent run
unchanged, rather than converting it into a generic 500.  The embedding of
`call_n8n` consumes a single response value: one outbound attempt is made
per invocation, with no retry. -/
theorem call_n8n_error_status_propagates (path : String) (resp : HttpResponse)
    (body : AgentPayload) (run : String → AgentRun) (e : HTTPExceptionV)
    (hst : 400 ≤ resp.status_code) :
    call_n8n_handle path resp =
      .error
        { status_code := 502
          detail := .pdict
            [("tool", .pstr path),
             ("status", .pint (resp.status_code : Int)),
             ("response", respData resp)] }
    ∧ (run (agent_user_input body) = AgentRun.httpExc e →
        agent_endpoint body run = .error e) := by
  constructor
  · rw [call_n8n_handle]
    simp [hst]
  · intro hrun
    rw [agent_endpoint, hrun]

/-- Witness for C3: a status-500 response from the price webhook produces
the 502 error with path, status and body in the detail, and an
`HTTPException` raised through the agent run leaves the endpoint
unchanged. -/
theorem call_n8n_error_status_propagates_witness :
    call_n8n_handle ("preco")
      { status_code := 500
        jsonResult := .ok (.pdict [("erro", PyVal.pstr ("boom"))])
        text := "" } =
      .error
        { status_code := 502
          detail := .pdict
            [("tool", PyVal.pstr ("preco")),
             ("status", PyVal.pint 500),
             ("response", .pdict [("erro", PyVal.pstr ("boom"))])] }
    ∧ agent_endpoint
        { lead_id := "123", instancia := Option.none, mensagem := "oi", contexto := Option.none }
        (fun _ => AgentRun.httpExc { status_code := 502, detail := PyVal.pstr ("tool failed") }) =
      .error { status_code := 502, detail := PyVal.pstr ("tool failed") } := by
  have h := call_n8n_error_status_propagates ("preco")
    { status_code := 500
      jsonResult := .ok (.pdict [("erro", PyVal.pstr ("boom"))])
      text := "" }
    { lead_id := "123", instancia := Option.none, mensagem := "oi", contexto := Option.none }
    (fun _ => AgentRun.httpExc { status_code := 502, detail := PyVal.pstr ("tool failed") })
    { status_code := 502, detail := PyVal.pstr ("tool failed") }
    (by decide)
  exact ⟨h.1, h.2 rfl⟩

/-- Claim C4: for every webhook response whose body does not parse as
JSON, the raw text is wrapped as the mapping with single key `text`, so on
a success status `call_n8n` returns exactly the raw body text (`text`
being in the candidate priority list, and the earlier candidates being
absent from the one-entry wrapper). -/
theorem call_n8n_wraps_unparsable_body (path : String) (resp : HttpResponse)
    (hst : resp.status_code < 400) (hjson : resp.jsonResult = .error ()) :
    call_n8n_handle path resp = .ok resp.text := by
  rw [call_n8n_handle]
  simp only [Nat.not_le.mpr hst, ge_iff_le, if_false]
  rw [respData, hjson]
  simp [flattenData, probeKeys, candidateKeys, lookupDict, isStrIntFloat, pyStr]

/-- Witness for C4: a plain-text body is returned verbatim. -/
theorem call_n8n_wraps_unparsable_body_witness :
    call_n8n_handle ("preco")
      { status_code := 200, jsonResult := .error (), text := "tudo certo" } =
      .ok "tudo certo" :=
  call_n8n_wraps_unparsable_body ("preco")
    { status_code := 200, jsonResult := .error (), text := "tudo certo" }
    (by decide) rfl

/-- Claim C5: for every webhook response whose body parses as JSON but is
not a mapping, `call_n8n` returns the Python string form of the value. -/
theorem call_n8n_nondict_str (path : String) (resp : HttpResponse) (d : PyVal)
    (hst : resp.status_code < 400) (hjson : resp.jsonResult = .ok d)
    (hd : isDict d = false) :
    call_n8n_handle path resp = .ok (pyStr d) := by
  rw [call_n8n_handle]
  simp only [Nat.not_le.mpr hst, ge_iff_le, if_false]
  rw [respData, hjson]
  cases d with
  | pdict kvs => simp [isDict] at hd
  | pnone => rfl
  | pbool b => rfl
  | pint n => rfl
  | pfloat s => rfl
  | pstr s => rfl
  | plist xs => rfl

/-- Witness for C5: the JSON number `42` comes back as the string `"42"`
and the JSON string `"ok"` as `"ok"`. -/
theorem call_n8n_nondict_str_witness :
    call_n8n_handle ("preco")
      { status_code := 200, jsonResult := .ok (PyVal.pint 42), text := "42" } = .ok "42"
    ∧ call_n8n_handle ("preco")
      { status_code := 200, jsonResult := .ok (PyVal.pstr ("ok")), text := "\"ok\"" } = .ok "ok" :=
  ⟨call_n8n_nondict_str ("preco")
      { status_code := 200, jsonResult := .ok (PyVal.pint 42), text := "42" }
      (PyVal.pint 42) (by decide) rfl rfl,
   call_n8n_nondict_str ("preco")
      { status_code := 200, jsonResult := .ok (PyVal.pstr ("ok")), text := "\"ok\"" }
      (PyVal.pstr ("ok")) (by decide) rfl rfl⟩

/-- Claim C6: a candidate key holding the number `0` — falsy in Python but
a valid `int` — is still selected by the key probing and returned as the
string `"0"`, whatever later entries the mapping holds: the membership
and `isinstance` tests do not test truthiness. -/
theorem call_n8n_zero_value_returned (path : String) (resp : HttpResponse)
    (rest : List (String × PyVal))
    (hst : resp.status_code < 400)
    (hjson : resp.jsonResult = .ok (.pdict (("mensagem", PyVal.pint 0) :: rest))) :
    call_n8n_handle path resp = .ok "0" := by
  rw [call_n8n_handle]
  simp only [Nat.not_le.mpr hst, ge_iff_le, if_false]
  rw [respData, hjson]
  simp [flattenData, probeKeys, candidateKeys, lookupDict, isStrIntFloat, pyStr, pyRepr]
  decide

/-- Witness for C6: `mensagem = 0` wins over a later present candidate and
over the serialization fallback. -/
theorem call_n8n_zero_value_returned_witness :
    call_n8n_handle ("preco")
      { status_code := 200
        jsonResult := .ok (.pdict
          [("mensagem", PyVal.pint 0), ("message", PyVal.pstr ("later")), ("output", PyVal.pstr ("x"))])
        text := "" } = .ok "0" :=
  call_n8n_zero_value_returned ("preco")
    { status_code := 200
      jsonResult := .ok (.pdict
        [("mensagem", PyVal.pint 0), ("message", PyVal.pstr ("later")), ("output", PyVal.pstr ("x"))])
      text := "" }
    [("message", PyVal.pstr ("later")), ("output", PyVal.pstr ("x"))]
    (by decide) rfl

theorem append_merge (a b c x : String) (h : a ++ b = c) : a ++ (b ++ x) = c ++ x := by
  rw [← String.append_assoc, h]

/-- Claim C7: for every validated request, the agent input is the single
string `lead_id=<lead_id>; instancia=<instancia>; contexto=<contexto as
JSON with non-ASCII preserved>; pergunta=<mensagem>`, with an absent
`instancia` rendered as the empty string and an absent `contexto` as the
empty object (Python renders both absent fields and their falsy empty
values the same way here). -/
theorem agent_user_input_format (body : AgentPayload) :
    agent_user_input body =
      "lead_id=" ++ body.lead_id ++
      "; instancia=" ++ body.instancia.getD "" ++
      "; contexto=" ++ jsonDumps (.pdict (body.contexto.getD [])) ++
      "; pergunta=" ++ body.mensagem := by
  have h1 : pyOrEmptyStr body.instancia = body.instancia.getD "" := by
    cases body.instancia with
    | none => rfl
    | some s => by_cases hs : s = "" <;> simp [pyOrEmptyStr, hs]
  have h2 : pyOrEmptyDict body.contexto = body.contexto.getD [] := by
    cases body.contexto with
    | none => rfl
    | some kvs => cases kvs <;> rfl
  rw [agent_user_input, h1, h2]
  simp only [String.append_assoc]
  rw [append_merge ("; ") ("instancia=") ("; instancia=") _ (by decide),
    append_merge ("; ") ("contexto=") ("; contexto=") _ (by decide),
    append_merge ("; ") ("pergunta=") ("; pergunta=") _ (by decide)]

/-- Claim C8: an argument mapping supplied by the agent is forwarded
verbatim — no keys added, removed or rewritten — by the `preco` tool to
the fixed path `preco` and by the `enviar_msg` tool to the fixed path
`enviarmsg`. -/
theorem tools_forward_mapping_verbatim (kvs : List (String × PyVal)) :
    preco_func (.pdict kvs) = { path := "preco", payload := .pdict kvs }
    ∧ enviar_msg_func (.pdict kvs) = { path := "enviarmsg", payload := .pdict kvs } :=
  ⟨rfl, rfl⟩

/-- Claim C9: in the key probing, a candidate key whose value is not a
`str`/`int`/`float` (e.g. `None`, a list, a nested object) is skipped and
probing continues with later candidates — `mensagem = None` with
`message = "oi"` yields `"oi"` — and a mapping in which every candidate
key is absent or holds such a non-scalar value falls through to the JSON
serialization fallback. -/
theorem call_n8n_skips_nonscalar_candidates :
    call_n8n_handle ("preco")
      { status_code := 200
        jsonResult := .ok (.pdict [("mensagem", PyVal.pnone), ("message", PyVal.pstr ("oi"))])
        text := "" } = .ok "oi"
    ∧ ∀ (path : String) (resp : HttpResponse) (kvs : List (String × PyVal)),
        resp.status_code < 400 →
        resp.jsonResult = .ok (.pdict kvs) →
        noScalarCandidate kvs = true →
        call_n8n_handle path resp = .ok (jsonDumps (.pdict kvs)) := by
  constructor
  · rfl
  · intro path resp kvs hst hjson hns
    rw [call_n8n_handle]
    simp only [Nat.not_le.mpr hst, ge_iff_le, if_false]
    rw [respData, hjson]
    rw [flattenData, probeKeys_none_of_noScalar candidateKeys kvs hns]

/-- Witness for C9: a mapping whose only candidate keys hold a list and
`None` serializes to JSON instead of being flattened by key probing. -/
theorem call_n8n_skips_nonscalar_candidates_witness :
    call_n8n_handle ("preco")
      { status_code := 200
        jsonResult := .ok (.pdict [("mensagem", PyVal.plist []), ("texto", PyVal.pnone)])
        text := "" } = .ok "\x7b\"mensagem\": [], \"texto\": null\x7d" := by
  have h := call_n8n_skips_nonscalar_candidates.2 ("preco")
    { status_code := 200
      jsonResult := .ok (.pdict [("mensagem", PyVal.plist []), ("texto", PyVal.pnone)])
      text := "" }
    [("mensagem", PyVal.plist []), ("texto", PyVal.pnone)]
    (by decide) rfl (by decide)
  exact h

/-- Claim C10: a tool input that is not a mapping (e.g. the plain string a
ReAct agent produces) is replaced by the empty mapping before the outbound
call, for both tools: the webhook receives an empty JSON object rather
than the agent's actual argument. -/
theorem tools_default_nondict_to_empty (a : PyVal) (ha : isDict a = false) :
    preco_func a = { path := "preco", payload := .pdict [] }
    ∧ enviar_msg_func a = { path := "enviarmsg", payload := .pdict [] } := by
  rw [preco_func, enviar_msg_func, ha]
  exact ⟨rfl, rfl⟩

/-- Witness for C10: a plain-string tool input is turned into the empty
mapping for both tools. -/
theorem tools_default_nondict_to_empty_witness :
    preco_func (PyVal.pstr ("qual o preço?")) = { path := "preco", payload := .pdict [] }
    ∧ enviar_msg_func (PyVal.pstr ("qual o preço?")) = { path := "enviarmsg", payload := .pdict [] } :=
  tools_default_nondict_to_empty (PyVal.pstr ("qual o preço?")) rfl

end AgentApp
